import Mathlib

/-!
Shallow embedding of the neuropdfv2 backend (src/backend/security.py and
src/backend/main.py): API-key validation, quota metering, usage recording,
namespace sanitization, and the upload / ask endpoint pipelines.

Timestamps are modelled as seconds (`Nat`); `datetime.max` is the largest
representable timestamp.  Python dicts are modelled as association lists
where insertion conses the new binding and `lookup` finds the most recent
one.  External collaborators (PyPDF2 parsing, PyPDFLoader, the text
splitter, the Pinecone index calls, the LLM) are oracles supplied as input
fields or function parameters, exactly at the call sites where the source
invokes them.
-/

namespace NeuroPDF

abbrev Time := Nat

/-- `timedelta(days=1)` in seconds. -/
def oneDay : Nat := 86400

/-- `datetime.max` (9999-12-31T23:59:59) as epoch seconds. -/
def dtMax : Time := 253402300799

/-- ASCII apostrophe, kept out of string literals. -/
def apos : String := String.singleton (Char.ofNat 39)

/-- `fastapi.HTTPException`: status code plus human-readable detail. -/
structure HTTPException where
  status_code : Nat
  detail : String
deriving Repr, DecidableEq

/-- `str(e)` for a Starlette `HTTPException` is `f"{status_code}: {detail}"`. -/
def HTTPException.toStr (e : HTTPException) : String :=
  toString e.status_code ++ ": " ++ e.detail

/-- Python exceptions that can escape a pipeline step: an `HTTPException`,
a `KeyError` on a dict, or an error raised by an external collaborator. -/
inductive PyError where
  | http (e : HTTPException)
  | keyError (k : String)
  | upstream (msg : String)
deriving Repr, DecidableEq

/-- `str(e)` for each modelled exception class. -/
def PyError.toStr : PyError → String
  | .http e => e.toStr
  | .keyError k => apos ++ k ++ apos
  | .upstream m => m

/-- An entry of the in-memory `api_keys` dict.  Fields that a given entry
may lack in the source (`user_id`, `expires_at` on the degraded entry that
`update_usage_metrics` creates) are `Option`s; `dict.get` defaults are
applied at the use sites, as in the source. -/
structure CacheRecord where
  user_id : Option String := none
  daily_usage : Nat := 0
  last_reset : Time := 0
  expires_at : Option Time := none
deriving Repr, DecidableEq

/-- A Firestore `api_keys/{key}` document (written by key issuance, so all
fields are present; ISO-8601 timestamps are modelled directly as times). -/
structure StoreRecord where
  user_id : String
  daily_usage : Nat
  last_reset : Time
  expires_at : Time
deriving Repr, DecidableEq

abbrev Cache := List (String × CacheRecord)
abbrev Store := List (String × StoreRecord)

/-- Dict lookup: the most recently inserted binding wins. -/
def lookup {α : Type} (m : List (String × α)) (k : String) : Option α :=
  (m.find? (fun p => p.1 = k)).map Prod.snd

/-- Dict assignment `m[k] = v`. -/
def setKey {α : Type} (m : List (String × α)) (k : String) (v : α) :
    List (String × α) :=
  (k, v) :: m

/-- `MAX_FILE_SIZE = 10 * 1024 * 1024`. -/
def MAX_FILE_SIZE : Nat := 10 * 1024 * 1024

/-- `MAX_PAGES = 50`. -/
def MAX_PAGES : Nat := 50

/-- `DAILY_QUOTA = 50 * 1024 * 1024` (local constant of `check_quota`). -/
def DAILY_QUOTA : Nat := 50 * 1024 * 1024

/-- The `b'%PDF-'` magic header. -/
def pdfMagic : List Nat := [0x25, 0x50, 0x44, 0x46, 0x2D]

/-- `is_pdf`: the content starts with the PDF magic header. -/
def is_pdf (file_content : List Nat) : Bool :=
  pdfMagic.isPrefixOf file_content

/-- Body of the `try` block in `validate_api_key` (the Firestore path).
Raises `HTTPException(401, "Invalid API key")` when the document is absent
and `HTTPException(401, "API key expired")` when `now > expires_at`;
otherwise populates the cache and returns the key. -/
def validateFromStore (now : Time) (api_key : String) (cache : Cache)
    (store : Store) : Except PyError (String × Cache) :=
  match lookup store api_key with
  | none => .error (.http ⟨401, "Invalid API key"⟩)
  | some kd =>
    if now > kd.expires_at then
      .error (.http ⟨401, "API key expired"⟩)
    else
      .ok (api_key,
        setKey cache api_key
          ⟨some kd.user_id, kd.daily_usage, kd.last_reset, some kd.expires_at⟩)

/-- `validate_api_key`: memory cache first (expiry check with
`.get("expires_at", datetime.max)`), then the Firestore path, whose `try`
wraps any raised exception into
`HTTPException(401, "Error validating API key: " + str(e))`. -/
def validate_api_key (now : Time) (api_key : String) (cache : Cache)
    (store : Store) : Except HTTPException (String × Cache) :=
  match lookup cache api_key with
  | some r =>
    if now > r.expires_at.getD dtMax then
      .error ⟨401, "API key expired"⟩
    else
      .ok (api_key, cache)
  | none =>
    match validateFromStore now api_key cache store with
    | .ok r => .ok r
    | .error e => .error ⟨401, "Error validating API key: " ++ e.toStr⟩

/-- `check_file_size`: rejects payloads over `MAX_FILE_SIZE` bytes. -/
def check_file_size (file_size : Nat) : Except HTTPException Unit :=
  if file_size > MAX_FILE_SIZE then
    .error ⟨400, "File size exceeds maximum limit of 10.0MB"⟩
  else
    .ok ()

/-- The `try` block of `validate_pdf_content`: PyPDF2 parsing is an oracle
(`parsePages = none` models a parse exception); a parsed PDF with more
than `MAX_PAGES` pages raises the page-limit `HTTPException` inside the
`try`. -/
def pdfPageCheck (parsePages : Option Nat) : Except PyError Unit :=
  match parsePages with
  | none => .error (.upstream "PdfReadError")
  | some n =>
    if n > MAX_PAGES then
      .error (.http ⟨400, "PDF exceeds maximum page limit of 50"⟩)
    else
      .ok ()

/-- `validate_pdf_content`: magic-header check, then the page-count `try`
whose `except Exception` converts any raised error (the page-limit
`HTTPException` included) into `HTTPException(400, "Invalid PDF file")`. -/
def validate_pdf_content (bytes : List Nat) (parsePages : Option Nat) :
    Except HTTPException Unit :=
  if ¬ is_pdf bytes then
    .error ⟨400, "Invalid file type. Only PDF files are allowed."⟩
  else
    match pdfPageCheck parsePages with
    | .ok () => .ok ()
    | .error _ => .error ⟨400, "Invalid PDF file"⟩

/-- The Firestore write at the end of `update_usage_metrics`:
`.update(...)` patches the two counters of an existing document and raises
(swallowed by the caller) when the document is absent. -/
def storeUpdate (store : Store) (k : String) (r : CacheRecord) : Store :=
  match lookup store k with
  | some kd =>
    setKey store k { kd with daily_usage := r.daily_usage, last_reset := r.last_reset }
  | none => store

/-- `update_usage_metrics`: load or lazily create the cache entry (zero-usage
degraded entry without `user_id`/`expires_at` when the store also misses),
reset the window when strictly more than one day has passed since
`last_reset`, add the processed bytes, then best-effort write-back to the
store (`storeWriteOk = false` models the swallowed write failure). -/
def update_usage_metrics (now : Time) (api_key : String)
    (bytes_processed : Nat) (storeWriteOk : Bool) (cache : Cache)
    (store : Store) : Cache × Store :=
  let r0 : CacheRecord :=
    match lookup cache api_key with
    | some r => r
    | none =>
      match lookup store api_key with
      | some kd => ⟨some kd.user_id, kd.daily_usage, kd.last_reset, some kd.expires_at⟩
      | none => ⟨none, 0, now, none⟩
  let r1 :=
    if now - r0.last_reset > oneDay then
      { r0 with daily_usage := 0, last_reset := now }
    else r0
  let r2 := { r1 with daily_usage := r1.daily_usage + bytes_processed }
  (setKey cache api_key r2, if storeWriteOk then storeUpdate store api_key r2 else store)

/-- `check_quota`: raises `HTTPException(429, "Daily quota exceeded")` when
the cached `daily_usage` strictly exceeds `DAILY_QUOTA`; indexing a missing
key raises `KeyError`. -/
def check_quota (api_key : String) (cache : Cache) : Except PyError Unit :=
  match lookup cache api_key with
  | none => .error (.keyError api_key)
  | some r =>
    if r.daily_usage > DAILY_QUOTA then
      .error (.http ⟨429, "Daily quota exceeded"⟩)
    else
      .ok ()

/-- One left-to-right non-overlapping pass removing every occurrence of
`".pdf"` — the semantics of Python `name.replace('.pdf', '')`, which
removes the substring everywhere, not just a trailing extension. -/
def stripPdfOcc : List Char → List Char
  | '.' :: 'p' :: 'd' :: 'f' :: rest => stripPdfOcc rest
  | c :: rest => c :: stripPdfOcc rest
  | [] => []

/-- The character map of `re.sub(r'[^a-zA-Z0-9]', '_', name)`. -/
def sanitizeChar (c : Char) : Char :=
  if c.isAlphanum then c else '_'

/-- `sanitize_namespace`: remove `.pdf` occurrences, replace every
non-alphanumeric character with an underscore, truncate to 50 characters. -/
def sanitize_namespace (name : String) : String :=
  let name1 : List Char := stripPdfOcc name.toList
  let sanitized : List Char := name1.map sanitizeChar
  if sanitized.length > 50 then ⟨sanitized.take 50⟩ else ⟨sanitized⟩

/-- The namespace computed at `upload_pdf` line 168:
`f"{user_id}_{sanitize_namespace(file.filename)}"`. -/
def namespaceFor (user_id : String) (filename : String) : String :=
  user_id ++ "_" ++ sanitize_namespace filename

/-- The external Pinecone index: the namespaces that exist, each with the
documents stored under it. -/
abbrev PineconeIndex := List (String × List String)

/-- `namespace_exists`: the namespace appears in the index stats. -/
def namespace_exists (index : PineconeIndex) (ns : String) : Bool :=
  (lookup index ns).isSome

/-- `index.delete(delete_all=True, namespace=ns)`: every vector under the
namespace is removed. -/
def indexDeleteAll (index : PineconeIndex) (ns : String) : PineconeIndex :=
  index.filter (fun p => p.1 ≠ ns)

/-- `vector_store.add_documents(documents=chunks)`: upsert the chunks under
the namespace, keeping whatever was already stored there. -/
def indexAdd (index : PineconeIndex) (ns : String) (docs : List String) :
    PineconeIndex :=
  match lookup index ns with
  | some old => setKey index ns (old ++ docs)
  | none => setKey index ns docs

/-- The mutable process state the endpoints touch: the in-memory key cache,
the Firestore collection, the `CURRENT_NAMESPACE` global, and the external
index. -/
structure ServerState where
  api_keys : Cache
  db : Store
  CURRENT_NAMESPACE : Option String
  index : PineconeIndex
deriving Repr, DecidableEq

/-- An upload request: the raw payload plus the oracles for each external
collaborator, in call order — PyPDF2 page parsing (`parsePages`),
`PyPDFLoader.load` (`loadDocs`), the text splitter (`splitChunks`), the
namespace clear call (`deleteOk`), `add_documents` (`addOk`), and the
Firestore usage write (`storeWriteOk`).  `none` / `false` models the
collaborator raising. -/
structure UploadFileIn where
  filename : String
  content : List Nat
  parsePages : Option Nat
  loadDocs : Option (List String)
  splitChunks : Option (List String)
  deleteOk : Bool
  addOk : Bool
  storeWriteOk : Bool
deriving Repr, DecidableEq

/-- The success payload of `/upload` (`namespaceId` models the `namespace`
response field, a reserved word here). -/
structure UploadResponse where
  message : String
  namespaceId : String
deriving Repr, DecidableEq

def liftHTTP {α : Type} : Except HTTPException α → Except PyError α
  | .ok a => .ok a
  | .error e => .error (.http e)

def exceptOk {ε α : Type} : Except ε α → Bool
  | .ok _ => true
  | .error _ => false

instance {ε α : Type} [DecidableEq ε] [DecidableEq α] :
    DecidableEq (Except ε α) := fun a b =>
  match a, b with
  | .error e1, .error e2 =>
    if h : e1 = e2 then isTrue (congrArg Except.error h)
    else isFalse (fun hh => h (Except.error.inj hh))
  | .ok a1, .ok a2 =>
    if h : a1 = a2 then isTrue (congrArg Except.ok h)
    else isFalse (fun hh => h (Except.ok.inj hh))
  | .error _, .ok _ => isFalse (fun hh => Except.noConfusion hh)
  | .ok _, .error _ => isFalse (fun hh => Except.noConfusion hh)

/-- The `try` body of `upload_pdf`, in source order: size check, content
validation, quota check, usage recording, namespace computation and
assignment of the `CURRENT_NAMESPACE` global, text extraction, chunking,
best-effort clear of the (new) current namespace when it already exists,
then submission of the chunks.  Mutations performed before a failing step
persist in the returned state, as they do on the Python globals. -/
def upload_body (now : Time) (api_key : String) (f : UploadFileIn)
    (st : ServerState) : Except PyError UploadResponse × ServerState :=
  match liftHTTP (check_file_size f.content.length) with
  | .error e => (.error e, st)
  | .ok () =>
    match liftHTTP (validate_pdf_content f.content f.parsePages) with
    | .error e => (.error e, st)
    | .ok () =>
      match check_quota api_key st.api_keys with
      | .error e => (.error e, st)
      | .ok () =>
        let (cache1, db1) :=
          update_usage_metrics now api_key f.content.length f.storeWriteOk
            st.api_keys st.db
        let st1 : ServerState := { st with api_keys := cache1, db := db1 }
        match lookup cache1 api_key with
        | none => (.error (.keyError api_key), st1)
        | some r =>
          let ns := namespaceFor (r.user_id.getD "anonymous") f.filename
          let st2 : ServerState := { st1 with CURRENT_NAMESPACE := some ns }
          match f.loadDocs with
          | none => (.error (.upstream "PdfLoadError"), st2)
          | some _docs =>
            match f.splitChunks with
            | none => (.error (.upstream "SplitError"), st2)
            | some chunks =>
              let index1 :=
                if namespace_exists st2.index ns then
                  if f.deleteOk then indexDeleteAll st2.index ns else st2.index
                else st2.index
              let st3 : ServerState := { st2 with index := index1 }
              if f.addOk then
                (.ok
                  { message := "PDF processed successfully. Created " ++
                      toString chunks.length ++ " chunks in namespace " ++ ns ++ ".",
                    namespaceId := ns },
                  { st3 with index := indexAdd index1 ns chunks })
              else
                (.error (.upstream "PineconeAddError"), st3)

/-- The `/upload` endpoint: the `validate_api_key` dependency runs first
(its `HTTPException`s surface untouched); any exception escaping the `try`
body is re-raised by the blanket handler as
`HTTPException(500, str(e))`. -/
def upload_pdf (now : Time) (api_key : String) (f : UploadFileIn)
    (st : ServerState) : Except HTTPException UploadResponse × ServerState :=
  match validate_api_key now api_key st.api_keys st.db with
  | .error e => (.error e, st)
  | .ok (k, cache0) =>
    let st0 : ServerState := { st with api_keys := cache0 }
    match upload_body now k f st0 with
    | (.ok r, st') => (.ok r, st')
    | (.error e, st') => (.error ⟨500, e.toStr⟩, st')

/-- Python truthiness test `not CURRENT_NAMESPACE`: true for `None` and
for the empty string. -/
def pyFalsy : Option String → Bool
  | none => true
  | some s => s = ""

/-- The `/ask` response model. -/
structure QuestionResponse where
  answer : String
  context : Option String
deriving Repr, DecidableEq

/-- A document returned by `similarity_search`: page content plus the
`filename` / `page` metadata fields (absent entries default to
`"Unknown"` at the use site). -/
structure RetrievedDoc where
  page_content : String
  filename : Option String
  page : Option String
deriving Repr, DecidableEq

/-- A LangChain chat message. -/
inductive ChatMessage where
  | system (content : String)
  | human (content : String)
deriving Repr, DecidableEq

/-- The canned zero-results answer of `ask_question`. -/
def fallbackAnswer : String :=
  "I don" ++ apos ++ "t have enough information in the document to answer this question."

/-- The canned zero-results context of `ask_question`. -/
def fallbackContext : String :=
  "No relevant content found in the document."

/-- One entry of `context_parts`:
`f"DOCUMENT SECTION {i+1} [Document: ..., Page: ...]:\n{doc.page_content}"`. -/
def formatDoc (i : Nat) (d : RetrievedDoc) : String :=
  "DOCUMENT SECTION " ++ toString (i + 1) ++ " [Document: " ++
    d.filename.getD "Unknown" ++ ", Page: " ++ d.page.getD "Unknown" ++
    "]:\n" ++ d.page_content

/-- The assembled context block. -/
def buildContext (results : List RetrievedDoc) : String :=
  "\n\n" ++ String.intercalate "\n\n" (results.mapIdx formatDoc)

/-- The fixed system prompt of `ask_question`. -/
def system_message : String :=
  "\n        You have access to a PDF document. Your task is to answer the user" ++
  apos ++ "s questions strictly based on the content of the PDF.\n        " ++
  "If a question cannot be answered from the PDF, respond with: \"The answer is not found in the document.\"\n        " ++
  "Be accurate, concise, and reference relevant sections or quotes when possible. Wait for the user" ++
  apos ++ "s question.\n        "

/-- The user prompt of `ask_question`, embedding the context and question. -/
def humanPrompt (context : String) (question : String) : String :=
  "CONTEXT:\n" ++ context ++ "\n\nQUESTION: " ++ question ++
  "\n\nRemember: ONLY use information from the document provided. If the answer isn" ++
  apos ++ "t in the document, say \"" ++ fallbackAnswer ++ "\"\n"

/-- The `try` body of `ask_question`: require a truthy `CURRENT_NAMESPACE`
(raising the 400 inside the `try`), consult retrieval (`results` is the
`similarity_search` oracle), short-circuit with the canned answer on zero
results, otherwise assemble the context and invoke the LLM collaborator
once. -/
def ask_body (question : String) (results : List RetrievedDoc)
    (llm : List ChatMessage → String) (st : ServerState) :
    Except PyError QuestionResponse :=
  if pyFalsy st.CURRENT_NAMESPACE then
    .error (.http ⟨400, "No document has been uploaded yet. Please upload a PDF first."⟩)
  else if results.isEmpty then
    .ok { answer := fallbackAnswer, context := some fallbackContext }
  else
    let context := buildContext results
    let messages := [ChatMessage.system system_message,
                     ChatMessage.human (humanPrompt context question)]
    .ok { answer := llm messages, context := some context }

/-- The `/ask` endpoint: the `validate_api_key` dependency runs first; any
exception escaping the `try` body (the `NoActiveDocument` 400 included) is
re-raised by the blanket handler as `HTTPException(500, str(e))`. -/
def ask_question (now : Time) (api_key : String) (question : String)
    (results : List RetrievedDoc) (llm : List ChatMessage → String)
    (st : ServerState) : Except HTTPException QuestionResponse × ServerState :=
  match validate_api_key now api_key st.api_keys st.db with
  | .error e => (.error e, st)
  | .ok (_k, cache0) =>
    let st0 : ServerState := { st with api_keys := cache0 }
    match ask_body question results llm st0 with
    | .ok r => (.ok r, st0)
    | .error e => (.error ⟨500, e.toStr⟩, st0)

/-! ### The spec-worded namespace transform (for refinement comparison)

`claimNamespaceFor` follows the spec sentence word for word — "strip the
`.pdf` suffix, replace every non-alphanumeric character with `_`, truncate
to 50 characters, prefix with `owner_id`" — to be compared with
`namespaceFor`, the transform embedded from the source. -/

/-- Strip one trailing `".pdf"` suffix, as the spec sentence says. -/
def claimSanitize (name : String) : String :=
  let l := name.toList
  let base :=
    if 4 ≤ l.length ∧ l.drop (l.length - 4) = ['.', 'p', 'd', 'f'] then
      l.take (l.length - 4)
    else l
  let s := base.map sanitizeChar
  if s.length > 50 then ⟨s.take 50⟩ else ⟨s⟩

/-- The spec-worded namespace: suffix-stripped sanitization, owner-prefixed. -/
def claimNamespaceFor (owner_id : String) (filename : String) : String :=
  owner_id ++ "_" ++ claimSanitize filename

/-! ### Test fixtures -/

/-- A cached, unexpired key record for user `u1` with no usage. -/
def recA : CacheRecord := ⟨some "u1", 0, 1000, some 999999999⟩

/-- A state whose current namespace is `u1_a`, with vectors stored under it. -/
def stA : ServerState :=
  { api_keys := [("k", recA)], db := [], CURRENT_NAMESPACE := some "u1_a",
    index := [("u1_a", ["old"])] }

/-- A small well-formed one-page PDF upload named `b.pdf` whose external
collaborators all succeed. -/
def fileB : UploadFileIn :=
  { filename := "b.pdf", content := [0x25, 0x50, 0x44, 0x46, 0x2D, 0x31],
    parsePages := some 1, loadDocs := some ["p"], splitChunks := some ["c"],
    deleteOk := true, addOk := true, storeWriteOk := false }

/-- The response `upload_pdf 2000 "k" fileB stA` returns. -/
def respB : UploadResponse :=
  { message := "PDF processed successfully. Created 1 chunks in namespace u1_b.",
    namespaceId := "u1_b" }

/-- The state `upload_pdf 2000 "k" fileB stA` leaves behind. -/
def stB : ServerState :=
  { api_keys := [("k", ⟨some "u1", 6, 1000, some 999999999⟩), ("k", recA)],
    db := [], CURRENT_NAMESPACE := some "u1_b",
    index := [("u1_b", ["c"]), ("u1_a", ["old"])] }

/-- A constant stand-in for the LLM collaborator. -/
def llmConst : List ChatMessage → String := fun _ => "llm-answer"

/-! ### Association-list lemmas -/

theorem lookup_setKey_same {α : Type} (m : List (String × α)) (k : String)
    (v : α) : lookup (setKey m k v) k = some v := by
  simp [lookup, setKey, List.find?]

theorem lookup_setKey_other {α : Type} (m : List (String × α))
    (k k' : String) (v : α) (h : k' ≠ k) :
    lookup (setKey m k v) k' = lookup m k' := by
  have h' : ¬ (k = k') := fun e => h e.symm
  simp [lookup, setKey, List.find?, h']

theorem find_filter_ne {α : Type} (l : List (String × α)) (ns ns' : String)
    (h : ns' ≠ ns) :
    List.find? (fun p => p.1 = ns') (l.filter (fun p => p.1 ≠ ns)) =
      List.find? (fun p => p.1 = ns') l := by
  induction l with
  | nil => rfl
  | cons p rest ih =>
    by_cases hk' : p.1 = ns'
    · simp [List.filter_cons, List.find?, hk', h, Ne.symm h, -List.find?_filter]
    · by_cases hk : p.1 = ns
      · simpa [List.filter_cons, List.find?, hk, hk', h, Ne.symm h, -List.find?_filter] using ih
      · simpa [List.filter_cons, List.find?, hk, hk', h, Ne.symm h, -List.find?_filter] using ih

theorem lookup_indexDeleteAll_other (idx : PineconeIndex) (ns ns' : String)
    (h : ns' ≠ ns) : lookup (indexDeleteAll idx ns) ns' = lookup idx ns' := by
  simp only [lookup, indexDeleteAll, find_filter_ne idx ns ns' h]

theorem find_filter_same {α : Type} (l : List (String × α)) (ns : String) :
    List.find? (fun p => p.1 = ns) (l.filter (fun p => p.1 ≠ ns)) = none := by
  induction l with
  | nil => rfl
  | cons p rest ih =>
    by_cases hk : p.1 = ns
    · simp [List.filter_cons, hk, -List.find?_filter, ih]
    · simp [List.filter_cons, List.find?, hk, -List.find?_filter, ih]

theorem lookup_indexDeleteAll_same (idx : PineconeIndex) (ns : String) :
    lookup (indexDeleteAll idx ns) ns = none := by
  simp [lookup, indexDeleteAll, find_filter_same idx ns]

theorem lookup_indexAdd_same (idx : PineconeIndex) (ns : String)
    (docs : List String) :
    lookup (indexAdd idx ns docs) ns =
      some ((lookup idx ns).getD [] ++ docs) := by
  unfold indexAdd
  cases h : lookup idx ns <;> simp [h, lookup_setKey_same]

theorem lookup_indexAdd_other (idx : PineconeIndex) (ns ns' : String)
    (docs : List String) (h : ns' ≠ ns) :
    lookup (indexAdd idx ns docs) ns' = lookup idx ns' := by
  unfold indexAdd
  cases hx : lookup idx ns <;> simp [lookup_setKey_other _ _ _ _ h]

theorem namespace_not_exists_lookup (idx : PineconeIndex) (ns : String)
    (h : namespace_exists idx ns = false) : lookup idx ns = none := by
  unfold namespace_exists at h
  cases hx : lookup idx ns
  · rfl
  · rw [hx] at h
    simp at h

theorem sanitize_namespace_eq_take (name : String) :
    sanitize_namespace name =
      ⟨((stripPdfOcc name.toList).map sanitizeChar).take 50⟩ := by
  unfold sanitize_namespace
  dsimp only
  split
  · rfl
  · next h => rw [List.take_of_length_le (by omega)]


/-- `ask_body` with zero retrieval results never consults the LLM: its value
is determined by the namespace check alone. -/
theorem ask_body_nil (q : String) (llm : List ChatMessage → String)
    (st : ServerState) :
    ask_body q [] llm st =
      if pyFalsy st.CURRENT_NAMESPACE then
        .error (.http ⟨400, "No document has been uploaded yet. Please upload a PDF first."⟩)
      else
        .ok { answer := fallbackAnswer, context := some fallbackContext } := by
  unfold ask_body
  split
  · rfl
  · rfl

/-- Claim C10: a cached key record lacking an `expires_at` field — such as
the degraded entry `update_usage_metrics` creates for a key absent from
both cache and store — validates successfully at every representable time:
the missing expiry defaults to `datetime.max`. -/
theorem missing_expiry_never_expires :
    (∀ (now : Time) (k : String) (cache : Cache) (store : Store) (r : CacheRecord),
      lookup cache k = some r → r.expires_at = none → now ≤ dtMax →
      validate_api_key now k cache store = .ok (k, cache)) ∧
    (∀ (now : Time) (k : String) (bytes : Nat) (w : Bool) (cache : Cache) (store : Store),
      lookup cache k = none → lookup store k = none →
      lookup ((update_usage_metrics now k bytes w cache store).1) k =
        some ⟨none, bytes, now, none⟩) := by
  constructor
  · intro now k cache store r hl he hb
    simp only [validate_api_key, hl, he, Option.getD_none]
    rw [if_neg (Nat.not_lt.mpr hb)]
  · intro now k bytes w cache store hc hs
    simp only [update_usage_metrics, hc, hs]
    have h0 : ¬ (now - now > oneDay) := by simp [oneDay]
    rw [if_neg h0]
    simp [lookup_setKey_same]

/-- Witness for C10 at concrete inputs. -/
theorem missing_expiry_never_expires_witness :
    validate_api_key 5000 "g" [("g", ⟨none, 7, 5000, none⟩)] [] =
      .ok ("g", [("g", ⟨none, 7, 5000, none⟩)]) ∧
    lookup ((update_usage_metrics 5000 "g" 7 true [] []).1) "g" =
      some ⟨none, 7, 5000, none⟩ :=
  ⟨missing_expiry_never_expires.1 5000 "g" [("g", ⟨none, 7, 5000, none⟩)] []
      ⟨none, 7, 5000, none⟩ (by decide) (by decide) (by decide),
   missing_expiry_never_expires.2 5000 "g" 7 true [] [] (by decide) (by decide)⟩

/-- Claim C7 counterexample: at the boundary instant `now = expires_at`,
`validate_api_key` still succeeds, so a record is not valid "only while
`now < expires_at`". -/
theorem validate_succeeds_at_expiry_instant :
    validate_api_key 100 "k" [("k", ⟨some "u1", 0, 0, some 100⟩)] [] =
      .ok ("k", [("k", ⟨some "u1", 0, 0, some 100⟩)]) ∧ ¬ (100 < 100) := by
  decide

/-- Claim C7 (amended): `validate_api_key` fails with a 401 whenever
`now > expires_at`, for cache-resident and store-only records alike, and
for a key absent from both; a record passes validation exactly while
`now ≤ expires_at` (the boundary instant included). -/
theorem validate_expiry_spec :
    (∀ (now : Time) (k : String) (cache : Cache) (store : Store) (r : CacheRecord),
      lookup cache k = some r → now > r.expires_at.getD dtMax →
      validate_api_key now k cache store = .error ⟨401, "API key expired"⟩) ∧
    (∀ (now : Time) (k : String) (cache : Cache) (store : Store) (sr : StoreRecord),
      lookup cache k = none → lookup store k = some sr → now > sr.expires_at →
      validate_api_key now k cache store =
        .error ⟨401, "Error validating API key: 401: API key expired"⟩) ∧
    (∀ (now : Time) (k : String) (cache : Cache) (store : Store),
      lookup cache k = none → lookup store k = none →
      validate_api_key now k cache store =
        .error ⟨401, "Error validating API key: 401: Invalid API key"⟩) ∧
    (∀ (now : Time) (k : String) (cache : Cache) (store : Store) (r : CacheRecord),
      lookup cache k = some r →
      (exceptOk (validate_api_key now k cache store) = true ↔
        now ≤ r.expires_at.getD dtMax)) ∧
    (∀ (now : Time) (k : String) (cache : Cache) (store : Store) (sr : StoreRecord),
      lookup cache k = none → lookup store k = some sr →
      (exceptOk (validate_api_key now k cache store) = true ↔
        now ≤ sr.expires_at)) := by
  refine ⟨?_, ?_, ?_, ?_, ?_⟩
  · intro now k cache store r hl hgt
    simp only [validate_api_key, hl]
    rw [if_pos hgt]
  · intro now k cache store sr hc hs hgt
    simp only [validate_api_key, validateFromStore, hc, hs]
    rw [if_pos hgt]
    decide
  · intro now k cache store hc hs
    simp only [validate_api_key, validateFromStore, hc, hs]
    decide
  · intro now k cache store r hl
    simp only [validate_api_key, hl]
    by_cases hgt : now > r.expires_at.getD dtMax
    · rw [if_pos hgt]
      simp only [exceptOk]
      simp only [Bool.false_eq_true, false_iff]
      exact Nat.not_le.mpr hgt
    · rw [if_neg hgt]
      simp only [exceptOk, true_iff]
      exact Nat.not_lt.mp hgt
  · intro now k cache store sr hc hs
    simp only [validate_api_key, validateFromStore, hc, hs]
    by_cases hgt : now > sr.expires_at
    · rw [if_pos hgt]
      simp only [exceptOk]
      simp only [Bool.false_eq_true, false_iff]
      exact Nat.not_le.mpr hgt
    · rw [if_neg hgt]
      simp only [exceptOk, true_iff]
      exact Nat.not_lt.mp hgt

/-- Witness for C7 (amended) at concrete inputs. -/
theorem validate_expiry_spec_witness :
    validate_api_key 200 "k" [("k", ⟨some "u1", 0, 0, some 100⟩)] [] =
      .error ⟨401, "API key expired"⟩ ∧
    validate_api_key 200 "s" [] [("s", ⟨"u2", 0, 0, 100⟩)] =
      .error ⟨401, "Error validating API key: 401: API key expired"⟩ ∧
    validate_api_key 200 "x" [] [] =
      .error ⟨401, "Error validating API key: 401: Invalid API key"⟩ ∧
    (exceptOk (validate_api_key 100 "k" [("k", ⟨some "u1", 0, 0, some 100⟩)] []) = true ↔
      (100 : Nat) ≤ 100) :=
  ⟨validate_expiry_spec.1 200 "k" [("k", ⟨some "u1", 0, 0, some 100⟩)] []
      ⟨some "u1", 0, 0, some 100⟩ (by decide) (by decide),
   validate_expiry_spec.2.1 200 "s" [] [("s", ⟨"u2", 0, 0, 100⟩)]
      ⟨"u2", 0, 0, 100⟩ (by decide) (by decide) (by decide),
   validate_expiry_spec.2.2.1 200 "x" [] [] (by decide) (by decide),
   validate_expiry_spec.2.2.2.1 100 "k" [("k", ⟨some "u1", 0, 0, some 100⟩)] []
      ⟨some "u1", 0, 0, some 100⟩ (by decide)⟩

/-- Claim C9: a query whose retrieval returns zero chunks is answered by
the canned fallback constant, independently of the LLM collaborator, which
is never invoked. -/
theorem zero_results_fallback_no_llm :
    (∀ (now : Time) (key q : String) (llm1 llm2 : List ChatMessage → String)
      (st : ServerState),
      ask_question now key q [] llm1 st = ask_question now key q [] llm2 st) ∧
    (∀ (now : Time) (key q : String) (llm : List ChatMessage → String)
      (st : ServerState) (cache0 : Cache),
      validate_api_key now key st.api_keys st.db = .ok (key, cache0) →
      pyFalsy st.CURRENT_NAMESPACE = false →
      (ask_question now key q [] llm st).1 =
        .ok { answer := fallbackAnswer, context := some fallbackContext }) := by
  constructor
  · intro now key q llm1 llm2 st
    simp only [ask_question, ask_body_nil]
  · intro now key q llm st cache0 hv hns
    simp only [ask_question, hv, ask_body_nil, hns]
    rfl

/-- Witness for C9 at concrete inputs. -/
theorem zero_results_fallback_no_llm_witness :
    (ask_question 2000 "k" "q" [] llmConst stA).1 =
      .ok { answer := fallbackAnswer, context := some fallbackContext } :=
  zero_results_fallback_no_llm.2 2000 "k" "q" llmConst stA stA.api_keys
    (by decide) (by decide)


/-- Helper: under the explicit success conditions of every pipeline step,
`upload_pdf` succeeds and the key's cached `daily_usage` has grown by the
payload's byte length (no rollover case). -/
theorem upload_pdf_success (now : Time) (key : String) (f : UploadFileIn)
    (st : ServerState) (r : CacheRecord) (p : Nat) (docs chunks : List String)
    (hl : lookup st.api_keys key = some r)
    (hexp : ¬ now > r.expires_at.getD dtMax)
    (hsize : ¬ f.content.length > MAX_FILE_SIZE)
    (hpdf : is_pdf f.content = true)
    (hpp : f.parsePages = some p) (hpages : ¬ p > MAX_PAGES)
    (hq : ¬ r.daily_usage > DAILY_QUOTA)
    (hrr : ¬ now - r.last_reset > oneDay)
    (hload : f.loadDocs = some docs) (hsplit : f.splitChunks = some chunks)
    (hadd : f.addOk = true) :
    exceptOk (upload_pdf now key f st).1 = true ∧
    lookup (upload_pdf now key f st).2.api_keys key =
      some ⟨r.user_id, r.daily_usage + f.content.length, r.last_reset, r.expires_at⟩ := by
  have hv : validate_api_key now key st.api_keys st.db = .ok (key, st.api_keys) := by
    simp only [validate_api_key, hl]
    rw [if_neg hexp]
  have hsz : check_file_size f.content.length = .ok () := by
    unfold check_file_size
    rw [if_neg hsize]
  have hpd : validate_pdf_content f.content f.parsePages = .ok () := by
    simp only [validate_pdf_content, pdfPageCheck, hpdf, hpp]
    rw [if_neg hpages]
    simp
  have hqok : check_quota key st.api_keys = .ok () := by
    simp only [check_quota, hl]
    rw [if_neg hq]
  have hupd : update_usage_metrics now key f.content.length f.storeWriteOk
      st.api_keys st.db =
      (setKey st.api_keys key
        ⟨r.user_id, r.daily_usage + f.content.length, r.last_reset, r.expires_at⟩,
       if f.storeWriteOk then
         storeUpdate st.db key
           ⟨r.user_id, r.daily_usage + f.content.length, r.last_reset, r.expires_at⟩
       else st.db) := by
    simp only [update_usage_metrics, hl]
    rw [if_neg hrr]
  simp only [upload_pdf, hv, upload_body, hsz, hpd, hqok, hupd, liftHTTP,
    lookup_setKey_same, hload, hsplit, hadd, if_true, exceptOk]
  simp [lookup_setKey_same]

/-- Helper: a key whose cached `daily_usage` exceeds `DAILY_QUOTA` has its
upload rejected at the quota step regardless of `now` and `last_reset`;
the raised 429 is re-wrapped as a 500 by the endpoint handler, and the
state is left untouched. -/
theorem upload_pdf_overquota (now : Time) (key : String) (f : UploadFileIn)
    (st : ServerState) (r : CacheRecord) (p : Nat)
    (hl : lookup st.api_keys key = some r)
    (hexp : ¬ now > r.expires_at.getD dtMax)
    (hsize : ¬ f.content.length > MAX_FILE_SIZE)
    (hpdf : is_pdf f.content = true)
    (hpp : f.parsePages = some p) (hpages : ¬ p > MAX_PAGES)
    (hq : r.daily_usage > DAILY_QUOTA) :
    upload_pdf now key f st = (.error ⟨500, "429: Daily quota exceeded"⟩, st) := by
  have hv : validate_api_key now key st.api_keys st.db = .ok (key, st.api_keys) := by
    simp only [validate_api_key, hl]
    rw [if_neg hexp]
  have hsz : check_file_size f.content.length = .ok () := by
    unfold check_file_size
    rw [if_neg hsize]
  have hpd : validate_pdf_content f.content f.parsePages = .ok () := by
    simp only [validate_pdf_content, pdfPageCheck, hpdf, hpp]
    rw [if_neg hpages]
    simp
  have hqe : check_quota key st.api_keys =
      .error (.http ⟨429, "Daily quota exceeded"⟩) := by
    simp only [check_quota, hl]
    rw [if_pos hq]
  simp only [upload_pdf, hv, upload_body, hsz, hpd, hqe, liftHTTP]
  rw [(by decide :
    PyError.toStr (.http ⟨429, "Daily quota exceeded"⟩) = "429: Daily quota exceeded")]

/-- Claim C4 counterexample: a key whose cached usage from a prior window
is over quota is still rejected after day rollover (here three days
later), and its stale counter is never reset by the failed upload. -/
theorem stale_overquota_rejected_after_rollover :
    upload_pdf 259200 "k"
        fileB
        { api_keys := [("k", ⟨some "u1", DAILY_QUOTA + 1, 0, some 999999999⟩)],
          db := [], CURRENT_NAMESPACE := none, index := [] } =
      (.error ⟨500, "429: Daily quota exceeded"⟩,
        { api_keys := [("k", ⟨some "u1", DAILY_QUOTA + 1, 0, some 999999999⟩)],
          db := [], CURRENT_NAMESPACE := none, index := [] }) ∧
    (259200 : Nat) - 0 > oneDay := by
  decide

/-- Claim C4 (amended): the rollover reset lives only inside
`update_usage_metrics`, which the upload flow reaches only after
`check_quota` has passed; `check_quota` reads the cached `daily_usage`
as-is, so a key over quota keeps failing after day rollover, while a key
at or under quota has its counter reset (to the new payload size) by the
next passing upload. -/
theorem quota_reset_only_in_update_usage_metrics :
    (∀ (k : String) (cache : Cache) (r : CacheRecord),
      lookup cache k = some r → r.daily_usage > DAILY_QUOTA →
      check_quota k cache = .error (.http ⟨429, "Daily quota exceeded"⟩)) ∧
    (∀ (now : Time) (k : String) (bytes : Nat) (w : Bool) (cache : Cache)
      (store : Store) (r : CacheRecord),
      lookup cache k = some r → now - r.last_reset > oneDay →
      lookup ((update_usage_metrics now k bytes w cache store).1) k =
        some ⟨r.user_id, bytes, now, r.expires_at⟩) ∧
    (∀ (now : Time) (key : String) (f : UploadFileIn) (st : ServerState)
      (r : CacheRecord) (p : Nat),
      lookup st.api_keys key = some r →
      ¬ now > r.expires_at.getD dtMax →
      ¬ f.content.length > MAX_FILE_SIZE →
      is_pdf f.content = true →
      f.parsePages = some p → ¬ p > MAX_PAGES →
      r.daily_usage > DAILY_QUOTA →
      upload_pdf now key f st = (.error ⟨500, "429: Daily quota exceeded"⟩, st)) := by
  refine ⟨?_, ?_, ?_⟩
  · intro k cache r hl hq
    simp only [check_quota, hl]
    rw [if_pos hq]
  · intro now k bytes w cache store r hl hroll
    simp only [update_usage_metrics, hl]
    rw [if_pos hroll]
    simp [lookup_setKey_same]
  · intro now key f st r p hl hexp hsize hpdf hpp hpages hq
    exact upload_pdf_overquota now key f st r p hl hexp hsize hpdf hpp hpages hq

/-- Witness for C4 (amended) at concrete inputs. -/
theorem quota_reset_only_in_update_usage_metrics_witness :
    check_quota "k" [("k", ⟨some "u1", DAILY_QUOTA + 1, 0, some 999999999⟩)] =
      .error (.http ⟨429, "Daily quota exceeded"⟩) ∧
    lookup ((update_usage_metrics 259200 "k" 5 false
        [("k", ⟨some "u1", DAILY_QUOTA + 1, 0, some 999999999⟩)] []).1) "k" =
      some ⟨some "u1", 5, 259200, some 999999999⟩ ∧
    upload_pdf 259200 "k" fileB
        { api_keys := [("k", ⟨some "u1", DAILY_QUOTA + 1, 0, some 999999999⟩)],
          db := [], CURRENT_NAMESPACE := none, index := [] } =
      (.error ⟨500, "429: Daily quota exceeded"⟩,
        { api_keys := [("k", ⟨some "u1", DAILY_QUOTA + 1, 0, some 999999999⟩)],
          db := [], CURRENT_NAMESPACE := none, index := [] }) :=
  ⟨quota_reset_only_in_update_usage_metrics.1 "k" _ ⟨some "u1", DAILY_QUOTA + 1, 0, some 999999999⟩
      (by decide) (by decide),
   quota_reset_only_in_update_usage_metrics.2.1 259200 "k" 5 false _ []
      ⟨some "u1", DAILY_QUOTA + 1, 0, some 999999999⟩ (by decide) (by decide),
   quota_reset_only_in_update_usage_metrics.2.2 259200 "k" fileB _
      ⟨some "u1", DAILY_QUOTA + 1, 0, some 999999999⟩ 1
      (by decide) (by decide) (by decide) (by decide) (by decide) (by decide) (by decide)⟩

/-- Claim C8: `check_quota` passes at exactly `DAILY_QUOTA` cached bytes
and raises the 429 quota error at `DAILY_QUOTA + 1`; in the upload flow it
runs before the payload's bytes are added, so a request starting exactly
at the limit succeeds, pushes the counter over the ceiling, and only the
next request fails the quota check. -/
theorem check_quota_boundary_and_order :
    (∀ (k : String) (cache : Cache) (r : CacheRecord),
      lookup cache k = some r → r.daily_usage = DAILY_QUOTA →
      check_quota k cache = .ok ()) ∧
    (∀ (k : String) (cache : Cache) (r : CacheRecord),
      lookup cache k = some r → r.daily_usage = DAILY_QUOTA + 1 →
      check_quota k cache = .error (.http ⟨429, "Daily quota exceeded"⟩)) ∧
    (∀ (now : Time) (key : String) (f : UploadFileIn) (st : ServerState)
      (r : CacheRecord) (p : Nat) (docs chunks : List String),
      lookup st.api_keys key = some r →
      ¬ now > r.expires_at.getD dtMax →
      ¬ f.content.length > MAX_FILE_SIZE →
      is_pdf f.content = true →
      f.parsePages = some p → ¬ p > MAX_PAGES →
      ¬ now - r.last_reset > oneDay →
      f.loadDocs = some docs → f.splitChunks = some chunks → f.addOk = true →
      r.daily_usage = DAILY_QUOTA → 0 < f.content.length →
      exceptOk (upload_pdf now key f st).1 = true ∧
      lookup (upload_pdf now key f st).2.api_keys key =
        some ⟨r.user_id, DAILY_QUOTA + f.content.length, r.last_reset, r.expires_at⟩ ∧
      check_quota key (upload_pdf now key f st).2.api_keys =
        .error (.http ⟨429, "Daily quota exceeded"⟩)) := by
  refine ⟨?_, ?_, ?_⟩
  · intro k cache r hl husage
    simp only [check_quota, hl]
    rw [if_neg (by rw [husage]; exact Nat.lt_irrefl _)]
  · intro k cache r hl husage
    simp only [check_quota, hl]
    rw [if_pos (by rw [husage]; exact Nat.lt_succ_self _)]
  · intro now key f st r p docs chunks hl hexp hsize hpdf hpp hpages hrr hload hsplit hadd husage hlen
    have hq : ¬ r.daily_usage > DAILY_QUOTA := by
      rw [husage]; exact Nat.lt_irrefl _
    obtain ⟨h1, h2⟩ := upload_pdf_success now key f st r p docs chunks hl hexp
      hsize hpdf hpp hpages hq hrr hload hsplit hadd
    rw [husage] at h2
    refine ⟨h1, h2, ?_⟩
    simp only [check_quota, h2]
    rw [if_pos (Nat.lt_add_of_pos_right hlen)]

/-- Witness for C8 at concrete inputs: a key at exactly the quota uploads
successfully, overshoots, and the next quota check rejects. -/
theorem check_quota_boundary_and_order_witness :
    check_quota "k" [("k", ⟨some "u1", DAILY_QUOTA, 1000, some 999999999⟩)] = .ok () ∧
    check_quota "k" [("k", ⟨some "u1", DAILY_QUOTA + 1, 1000, some 999999999⟩)] =
      .error (.http ⟨429, "Daily quota exceeded"⟩) ∧
    (exceptOk (upload_pdf 2000 "k" fileB
        { api_keys := [("k", ⟨some "u1", DAILY_QUOTA, 1000, some 999999999⟩)],
          db := [], CURRENT_NAMESPACE := none, index := [] }).1 = true ∧
      lookup (upload_pdf 2000 "k" fileB
        { api_keys := [("k", ⟨some "u1", DAILY_QUOTA, 1000, some 999999999⟩)],
          db := [], CURRENT_NAMESPACE := none, index := [] }).2.api_keys "k" =
        some ⟨some "u1", DAILY_QUOTA + 6, 1000, some 999999999⟩ ∧
      check_quota "k" (upload_pdf 2000 "k" fileB
        { api_keys := [("k", ⟨some "u1", DAILY_QUOTA, 1000, some 999999999⟩)],
          db := [], CURRENT_NAMESPACE := none, index := [] }).2.api_keys =
        .error (.http ⟨429, "Daily quota exceeded"⟩)) :=
  ⟨check_quota_boundary_and_order.1 "k" _ ⟨some "u1", DAILY_QUOTA, 1000, some 999999999⟩
      (by decide) (by decide),
   check_quota_boundary_and_order.2.1 "k" _ ⟨some "u1", DAILY_QUOTA + 1, 1000, some 999999999⟩
      (by decide) (by decide),
   check_quota_boundary_and_order.2.2 2000 "k" fileB _
      ⟨some "u1", DAILY_QUOTA, 1000, some 999999999⟩ 1 ["p"] ["c"]
      (by decide) (by decide) (by decide) (by decide) (by decide) (by decide)
      (by decide) (by decide) (by decide) (by decide) (by decide) (by decide)⟩


/-- An oversized upload payload: `MAX_FILE_SIZE + 1` zero bytes. -/
def fBig : UploadFileIn := { fileB with content := List.replicate (MAX_FILE_SIZE + 1) 0 }

/-- Helper: an authenticated upload whose payload exceeds `MAX_FILE_SIZE`
is rejected by `check_file_size` before any state mutation, and the 400 is
re-wrapped as a 500 by the endpoint handler. -/
theorem upload_pdf_oversize (now : Time) (key : String) (f : UploadFileIn)
    (st : ServerState) (r : CacheRecord)
    (hl : lookup st.api_keys key = some r)
    (hexp : ¬ now > r.expires_at.getD dtMax)
    (hbig : f.content.length > MAX_FILE_SIZE) :
    upload_pdf now key f st =
      (.error ⟨500, "400: File size exceeds maximum limit of 10.0MB"⟩, st) := by
  have hv : validate_api_key now key st.api_keys st.db = .ok (key, st.api_keys) := by
    simp only [validate_api_key, hl]
    rw [if_neg hexp]
  have hsz : check_file_size f.content.length =
      .error ⟨400, "File size exceeds maximum limit of 10.0MB"⟩ := by
    unfold check_file_size
    rw [if_pos hbig]
  simp only [upload_pdf, hv, upload_body, hsz, liftHTTP]
  rw [(by decide :
    PyError.toStr (.http ⟨400, "File size exceeds maximum limit of 10.0MB"⟩) =
      "400: File size exceeds maximum limit of 10.0MB")]

/-- Claim C3 (code bug): each payload-validation failure — wrong magic
header, too many pages, oversize — leaves the quota counters and the
credential cache untouched, but the endpoint surfaces HTTP 500 (the
`Internal` class) because the blanket `except Exception` re-wraps the 400
`PayloadInvalid` `HTTPException` raised inside the `try` block. -/
theorem payload_invalid_surfaces_as_500 :
    upload_pdf 2000 "k" { fileB with content := [0x00] } stA =
      (.error ⟨500, "400: Invalid file type. Only PDF files are allowed."⟩, stA) ∧
    upload_pdf 2000 "k" { fileB with parsePages := some 51 } stA =
      (.error ⟨500, "400: Invalid PDF file"⟩, stA) ∧
    upload_pdf 2000 "k" fBig stA =
      (.error ⟨500, "400: File size exceeds maximum limit of 10.0MB"⟩, stA) := by
  refine ⟨by decide, by decide, ?_⟩
  have hbig : fBig.content.length > MAX_FILE_SIZE := by
    have hlen : fBig.content.length = MAX_FILE_SIZE + 1 := by
      simp [fBig, fileB]
    rw [hlen]
    exact Nat.lt_succ_self _
  exact upload_pdf_oversize 2000 "k" fBig stA recA (by decide) (by decide) hbig

/-- Claim C5 (code bug): a query with no active document raises the 400
`NoActiveDocument` `HTTPException` inside the `try` block, and the blanket
`except Exception` re-wraps it, so the endpoint surfaces HTTP 500 — the
`Internal` class — instead of a distinguishable typed error. -/
theorem no_active_document_surfaces_as_500 :
    ask_question 2000 "k" "q" [] llmConst { stA with CURRENT_NAMESPACE := none } =
      (.error ⟨500, "400: No document has been uploaded yet. Please upload a PDF first."⟩,
        { stA with CURRENT_NAMESPACE := none }) := by
  decide

/-- Claim C6 counterexample: the source removes every occurrence of the
substring `.pdf`, not just a trailing suffix, so the code transform and
the claimed suffix-stripping transform disagree on `"a.pdf.pdf"`. -/
theorem sanitize_strips_all_occurrences_not_suffix :
    namespaceFor "u1" "a.pdf.pdf" = "u1_a" ∧
    claimNamespaceFor "u1" "a.pdf.pdf" = "u1_a_pdf" ∧
    namespaceFor "u1" "a.pdf.pdf" ≠ claimNamespaceFor "u1" "a.pdf.pdf" := by
  decide

/-- Claim C6 (amended): the namespace transform removes every occurrence
of `.pdf` (not only a suffix), replaces non-alphanumerics with `_`,
truncates to 50 characters and prefixes the owner id; the spec's worked
example holds, and filenames agreeing on their first 50 sanitized
characters collide. -/
theorem sanitize_namespace_spec :
    namespaceFor "u1" "My Report (v2).pdf" = "u1_My_Report__v2_" ∧
    namespaceFor "u1" "a.pdfb.pdf" = "u1_ab" ∧
    (∀ (owner f1 f2 : String),
      ((stripPdfOcc f1.toList).map sanitizeChar).take 50 =
        ((stripPdfOcc f2.toList).map sanitizeChar).take 50 →
      namespaceFor owner f1 = namespaceFor owner f2) := by
  refine ⟨by decide, by decide, ?_⟩
  intro owner f1 f2 h
  unfold namespaceFor
  rw [sanitize_namespace_eq_take, sanitize_namespace_eq_take, h]

/-- Witness for C6 (amended): two filenames that differ only after their
first 50 sanitized characters map to the same namespace. -/
theorem sanitize_namespace_spec_witness :
    namespaceFor "u1" ⟨List.replicate 60 'a'⟩ =
      namespaceFor "u1" ⟨List.replicate 50 'a' ++ List.replicate 10 'b'⟩ ∧
    (⟨List.replicate 60 'a'⟩ : String) ≠
      ⟨List.replicate 50 'a' ++ List.replicate 10 'b'⟩ :=
  ⟨sanitize_namespace_spec.2.2 "u1" ⟨List.replicate 60 'a'⟩
      ⟨List.replicate 50 'a' ++ List.replicate 10 'b'⟩ (by decide),
   by decide⟩

/-- Claim C2 counterexample: an upload that passes validation and quota
but fails during text extraction (the loader raises) still records usage:
the cached `daily_usage` grows from 0 to the payload size 6. -/
theorem failed_extraction_still_records_usage :
    exceptOk (upload_pdf 2000 "k" { fileB with loadDocs := none } stA).1 = false ∧
    lookup (upload_pdf 2000 "k" { fileB with loadDocs := none } stA).2.api_keys "k" =
      some ⟨some "u1", 6, 1000, some 999999999⟩ ∧
    (6 : Nat) ≠ 0 := by
  decide

/-- Claim C2 (amended): usage recording happens directly after the quota
check and before extraction, chunking and index submission: whenever those
first four steps pass, the final credential cache is exactly the one
`update_usage_metrics` produced, regardless of whether extraction,
chunking or submission subsequently fail. -/
theorem usage_recorded_before_extraction (now : Time) (key : String)
    (f : UploadFileIn) (st : ServerState) (cache0 : Cache)
    (hv : validate_api_key now key st.api_keys st.db = .ok (key, cache0))
    (hsz : check_file_size f.content.length = .ok ())
    (hpd : validate_pdf_content f.content f.parsePages = .ok ())
    (hq : check_quota key cache0 = .ok ()) :
    (upload_pdf now key f st).2.api_keys =
      (update_usage_metrics now key f.content.length f.storeWriteOk cache0 st.db).1 := by
  simp only [upload_pdf, hv, upload_body, hsz, hpd, hq, liftHTTP]
  rcases hU : update_usage_metrics now key f.content.length f.storeWriteOk cache0 st.db
    with ⟨c1, d1⟩
  simp only [hU]
  split <;> rename_i a b heq <;> (repeat' (split at heq)) <;>
    (injection heq with h1 h2; subst h2; rfl)

/-- Witness for C2 (amended) at concrete inputs. -/
theorem usage_recorded_before_extraction_witness :
    (upload_pdf 2000 "k" { fileB with loadDocs := none } stA).2.api_keys =
      (update_usage_metrics 2000 "k" 6 false stA.api_keys stA.db).1 :=
  usage_recorded_before_extraction 2000 "k" { fileB with loadDocs := none } stA
    stA.api_keys (by decide) (by decide) (by decide) (by decide)


/-- Claim C1 counterexample: a successful upload overwrites the pointer to
the new namespace but leaves the prior current namespace's vector data in
the index untouched — the clear call targets the new namespace, which is
reassigned before the deletion. -/
theorem upload_does_not_clear_prior_namespace :
    exceptOk (upload_pdf 2000 "k" fileB stA).1 = true ∧
    stA.CURRENT_NAMESPACE = some "u1_a" ∧
    (upload_pdf 2000 "k" fileB stA).2.CURRENT_NAMESPACE = some "u1_b" ∧
    lookup (upload_pdf 2000 "k" fileB stA).2.index "u1_a" = some ["old"] := by
  decide

/-- Claim C1 (amended): every successful upload overwrites the pointer to
the new document's namespace; the pre-existing vector data cleared (when
the best-effort delete succeeds) is the data under that *new* namespace,
while every other namespace — the prior pointer's value included — keeps
its data. -/
theorem upload_overwrites_pointer_and_clears_new_namespace
    (now : Time) (key : String) (f : UploadFileIn) (st : ServerState)
    (resp : UploadResponse) (stFin : ServerState) (cs : List String)
    (h : upload_pdf now key f st = (.ok resp, stFin))
    (hcs : f.splitChunks = some cs) :
    stFin.CURRENT_NAMESPACE = some resp.namespaceId ∧
    (∀ ns, ns ≠ resp.namespaceId → lookup stFin.index ns = lookup st.index ns) ∧
    (f.deleteOk = true → lookup stFin.index resp.namespaceId = some cs) := by
  unfold upload_pdf at h
  split at h
  · simp at h
  · rename_i k cache0 hv
    dsimp only at h
    split at h
    · rename_i r1 st1 heq2
      rw [Prod.mk.injEq] at h
      obtain ⟨hr, hst⟩ := h
      injection hr with hr
      subst hr
      subst hst
      unfold upload_body at heq2
      simp only [hcs] at heq2
      rcases hU : update_usage_metrics now k f.content.length f.storeWriteOk cache0 st.db
        with ⟨c1, d1⟩
      rw [hU] at heq2
      repeat' (split at heq2)
      all_goals (injection heq2 with e1 e2)
      any_goals exact Except.noConfusion e1
      all_goals (injection e1 with e1; subst e1; subst e2)
      all_goals refine ⟨rfl, ?_, ?_⟩
      all_goals
        first
          | (intro ns0 hne
             rw [lookup_indexAdd_other _ _ _ _ hne,
                 lookup_indexDeleteAll_other _ _ _ hne])
          | (intro ns0 hne
             rw [lookup_indexAdd_other _ _ _ _ hne])
          | (intro hdel
             rw [lookup_indexAdd_same, lookup_indexDeleteAll_same]
             simp)
          | (intro hdel
             simp_all [lookup_indexAdd_same, namespace_not_exists_lookup])
    · simp at h


/-- Witness for C1 (amended) at concrete inputs. -/
theorem upload_overwrites_pointer_and_clears_new_namespace_witness :
    stB.CURRENT_NAMESPACE = some respB.namespaceId ∧
    lookup stB.index respB.namespaceId = some ["c"] :=
  ⟨(upload_overwrites_pointer_and_clears_new_namespace 2000 "k" fileB stA respB stB
      ["c"] (by decide) (by decide)).1,
   (upload_overwrites_pointer_and_clears_new_namespace 2000 "k" fileB stA respB stB
      ["c"] (by decide) (by decide)).2.2 (by decide)⟩

end NeuroPDF
